import Mathlib

/-!
Shallow embedding of the formiclimate climate controller
(src/main.rs, src/ntc.rs, src/relay.rs, src/pwm.rs, src/millis.rs).

Machine `u32`/`u16` arithmetic is modelled over `ℕ` with explicit
`% 2^32` / `% 2^16` where the Rust code wraps; `f32` values are modelled
over `ℚ` in the control/filter layer and over `ℝ` in the
thermistor-conversion layer (which needs `Real.log` for `libm::logf`).
ADC reads and derived `fahrenheit()` readings are passed to the step
functions as explicit inputs; everything else mirrors the source
field-for-field.
-/

namespace Formiclimate

/-- `2^32`, the modulus of Rust `u32` wrapping arithmetic. -/
def U32 : ℕ := 2 ^ 32

/-- `2^16`, the modulus of Rust `u16` wrapping arithmetic. -/
def U16 : ℕ := 2 ^ 16

/-- `DefaultClock::FREQ` for the ATmega32u4 Arduino board: 16 MHz. -/
def FREQ : ℕ := 16000000

/-- `const PWM_HZ: u16 = 25_000` (main.rs). -/
def PWM_HZ : ℕ := 25000

/-- `const SAMPLE_INTERVAL: u32 = 1` (main.rs). -/
def SAMPLE_INTERVAL : ℕ := 1

/-- `const UPDATE_INTERVAL: u32 = 10` (main.rs). -/
def UPDATE_INTERVAL : ℕ := 10

/-- `const DISPLAY_INTERVAL: u32 = 100` (main.rs). -/
def DISPLAY_INTERVAL : ℕ := 100

/-- `const BLINK_INTERVAL: u32 = 1000` (main.rs). -/
def BLINK_INTERVAL : ℕ := 1000

/-- `const GRACE_PERIOD: u32 = 2000` (main.rs). -/
def GRACE_PERIOD : ℕ := 2000

/-- `const TARGET_TEMP: f32 = 57.5` (main.rs). -/
def TARGET_TEMP : ℚ := 57.5

/-- Rust `f32::clamp(lo, hi)`: for `lo ≤ hi` this is `max lo (min v hi)`. -/
def clampf (v lo hi : ℚ) : ℚ := max lo (min v hi)

/-- `normalize` (main.rs:411): clamp `value` to `[min,max]` then map that
linearly to `[0,1]`. -/
def normalize (value lo hi : ℚ) : ℚ :=
  (clampf value lo hi - lo) / (hi - lo)

/-- A relay's powered state (relay.rs, `enum RelayState`). -/
inductive RelayState
  | inactive
  | active
deriving DecidableEq, Repr

/-- `Relay::is_active` (relay.rs:39). -/
def RelayState.is_active : RelayState → Bool
  | .inactive => false
  | .active => true

/-- `Relay::activate` (relay.rs:44); the output pin level is determined by
the state and is not modelled separately. -/
def RelayState.activate (_ : RelayState) : RelayState := .active

/-- `Relay::deactivate` (relay.rs:50). -/
def RelayState.deactivate (_ : RelayState) : RelayState := .inactive

/-- One NTC thermistor channel (ntc.rs, `struct Thermistor`): calibration
constants `r0`, `b`, `r_bias` and the running filtered `sample`. The memo
cell `kelvin: Cell<Option<f32>>` caches a pure function of `sample` and is
not part of the observable state. -/
structure Thermistor where
  r0 : ℚ
  b : ℚ
  r_bias : ℚ
  sample : ℚ
deriving DecidableEq, Repr

/-- `Thermistor::new` (ntc.rs:34): initial filtered sample is `0.0`. -/
def Thermistor.new (r0 b r_bias : ℚ) : Thermistor :=
  { r0 := r0, b := b, r_bias := r_bias, sample := 0 }

/-- `Thermistor::sample` (ntc.rs:51): fold one raw ADC code into the
filtered state, `filtered ← filtered·(1−sens) + raw·sens`. The raw code
`val = analog_read(adc)` is passed as an input. -/
def Thermistor.sampleStep (t : Thermistor) (val sens : ℚ) : Thermistor :=
  { t with sample := t.sample * (1 - sens) + val * sens }

/-- One raw ADC code per channel, the inputs of one aggregate
`Sensorium::sample` call. -/
structure RawCodes where
  coolant : ℚ
  habitat : ℚ
  condenser : ℚ
  evaporator : ℚ
deriving DecidableEq, Repr

/-- The sensor bank (main.rs, `struct Sensorium`): four thermistor
channels plus the shared adaptive coefficient `sens` and its remaining
decay-step counter `sens_steps`. -/
structure Sensorium where
  coolant_temp : Thermistor
  habitat_temp : Thermistor
  condenser_temp : Thermistor
  evaporator_temp : Thermistor
  sens : ℚ
  sens_steps : ℕ
deriving DecidableEq, Repr

/-- `Sensorium::new` (main.rs:64): the four channels with their
calibration constants, `sens = 1.0`, `sens_steps = 10`. -/
def Sensorium.new : Sensorium :=
  { coolant_temp := Thermistor.new 10000 3380 9820
    habitat_temp := Thermistor.new 20000 3950 21440
    condenser_temp := Thermistor.new 100000 3950 100500
    evaporator_temp := Thermistor.new 10000 3380 9860
    sens := 1
    sens_steps := 10 }

/-- `Sensorium::sample` (main.rs:107): sample every channel with the
shared coefficient, then halve the coefficient if decay steps remain. -/
def Sensorium.sample (s : Sensorium) (raw : RawCodes) : Sensorium :=
  let s :=
    { s with
      coolant_temp := s.coolant_temp.sampleStep raw.coolant s.sens
      habitat_temp := s.habitat_temp.sampleStep raw.habitat s.sens
      condenser_temp := s.condenser_temp.sampleStep raw.condenser s.sens
      evaporator_temp := s.evaporator_temp.sampleStep raw.evaporator s.sens }
  if 0 < s.sens_steps then
    { s with sens := s.sens * 0.5, sens_steps := s.sens_steps - 1 }
  else s

/-- A page being displayed on the LCD (main.rs, `enum Page`): the compiled
crate has exactly the variants `None` and `Temps`. -/
inductive Page
  | noPage
  | temps
deriving DecidableEq, Repr

/-- 3-channel PWM controller (pwm.rs, `struct PWMController`): the PWM
frequency `hz`, the timer top value, the three compare registers
`ocr1a/b/c` and the three stored duty fractions. -/
structure PWMController where
  hz : ℕ
  top : ℕ
  ocr1a : ℕ
  ocr1b : ℕ
  ocr1c : ℕ
  duty_a : ℚ
  duty_b : ℚ
  duty_c : ℚ
deriving DecidableEq, Repr

/-- `PWMController::new` (pwm.rs:60): `top = FREQ / (hz·2)` truncated to
`u16`; compare registers and duties start at zero. -/
def PWMController.new (hz : ℕ) : PWMController :=
  { hz := hz
    top := FREQ / (hz * 2) % U16
    ocr1a := 0, ocr1b := 0, ocr1c := 0
    duty_a := 0, duty_b := 0, duty_c := 0 }

/-- `PWMController::set_duty_a` (pwm.rs:130): clamp the duty to `[0,1]`,
write `(top as f32 * duty) as u16` to the compare register, store the
clamped duty. The `as u16` cast truncates the nonnegative product toward
zero, i.e. takes its floor. -/
def PWMController.set_duty_a (p : PWMController) (duty : ℚ) : PWMController :=
  let duty := clampf duty 0 1
  { p with ocr1a := ⌊(p.top : ℚ) * duty⌋.toNat, duty_a := duty }

/-- `PWMController::set_duty_b` (pwm.rs:139). -/
def PWMController.set_duty_b (p : PWMController) (duty : ℚ) : PWMController :=
  let duty := clampf duty 0 1
  { p with ocr1b := ⌊(p.top : ℚ) * duty⌋.toNat, duty_b := duty }

/-- `PWMController::set_duty_c` (pwm.rs:148). -/
def PWMController.set_duty_c (p : PWMController) (duty : ℚ) : PWMController :=
  let duty := clampf duty 0 1
  { p with ocr1c := ⌊(p.top : ℚ) * duty⌋.toNat, duty_c := duty }

/-- The four derived `fahrenheit()` readings consumed by one control-task
invocation (main.rs:252-255). Their computation from the filtered samples
is the ℝ-level conversion chain embedded below (`kelvinR` etc.); they are
passed to the control step as explicit inputs. -/
structure Readings where
  habitat : ℚ
  coolant : ℚ
  condenser : ℚ
  evaporator : ℚ
deriving DecidableEq, Repr

/-- The climate-control state machine (main.rs, `struct ClimateController`).
Hardware handles (pins, LCD driver, `_relay2`, `_aux*`) carry no control
state; the rendered-pages log records each render request handed to the
display sink by `print_temps`. -/
structure Controller where
  sensorium : Sensorium
  next_sample : ℕ
  next_update : ℕ
  next_display : ℕ
  next_blink : ℕ
  target_temp : Option ℚ
  compressor : RelayState
  heater : RelayState
  master_120vac : RelayState
  pwm : PWMController
  blink : Bool
  last_page : Page
  rendered : List Page
deriving DecidableEq, Repr

/-- `ClimateController::new` (main.rs:160): all deadlines at 0, no target,
relays inactive, PWM at `PWM_HZ` with zero duties, LED low, no page. -/
def Controller.new : Controller :=
  { sensorium := Sensorium.new
    next_sample := 0, next_update := 0, next_display := 0, next_blink := 0
    target_temp := none
    compressor := .inactive
    heater := .inactive
    master_120vac := .inactive
    pwm := PWMController.new PWM_HZ
    blink := false
    last_page := .noPage
    rendered := [] }

/-- `ClimateController::begin` (main.rs:210): one-shot activation — if a
target is already set, return; otherwise latch the target and activate the
master 120 VAC relay. -/
def Controller.begin (c : Controller) (target : ℚ) : Controller :=
  if c.target_temp.isSome then c
  else
    { c with target_temp := some target
             master_120vac := c.master_120vac.activate }

/-- `ClimateController::set_condenser_fan_duty` (main.rs:220). -/
def Controller.set_condenser_fan_duty (c : Controller) (duty : ℚ) : Controller :=
  { c with pwm := c.pwm.set_duty_a duty }

/-- `ClimateController::set_habitat_fan_duty` (main.rs:224). -/
def Controller.set_habitat_fan_duty (c : Controller) (duty : ℚ) : Controller :=
  { c with pwm := c.pwm.set_duty_b duty }

/-- `ClimateController::set_coolant_pump_duty` (main.rs:228). -/
def Controller.set_coolant_pump_duty (c : Controller) (duty : ℚ) : Controller :=
  { c with pwm := c.pwm.set_duty_c duty }

/-- `ClimateController::try_sample` (main.rs:232): fire iff
`now ≥ next_sample`; on firing advance the deadline by `SAMPLE_INTERVAL`
(u32 wrapping) and sample the sensorium on the given raw ADC codes. -/
def Controller.try_sample (c : Controller) (now : ℕ) (raw : RawCodes) : Controller :=
  if now < c.next_sample then c
  else
    { c with next_sample := (c.next_sample + SAMPLE_INTERVAL) % U32
             sensorium := c.sensorium.sample raw }

/-- Heater hysteresis decision (main.rs:260-266): if currently on, turn
off when `habitat > target`; if currently off, turn on when
`habitat < target − 1.0`. -/
def Controller.heater_step (c : Controller) (target habitat : ℚ) : Controller :=
  if c.heater.is_active then
    if habitat > target then { c with heater := c.heater.deactivate } else c
  else if habitat < target - 1.0 then { c with heater := c.heater.activate }
  else c

/-- Compressor hysteresis decision (main.rs:268-274): if currently on,
turn off when `coolant < target − 20.0`; if currently off, turn on when
`coolant > target − 5.0`. -/
def Controller.compressor_step (c : Controller) (target coolant : ℚ) : Controller :=
  if c.compressor.is_active then
    if coolant < target - 20.0 then { c with compressor := c.compressor.deactivate }
    else c
  else if coolant > target - 5.0 then { c with compressor := c.compressor.activate }
  else c

/-- Condenser-fan decision (main.rs:276-280): duty
`normalize(condenser, 75, 100)` when `condenser > 80`, else `0`. -/
def Controller.condenser_fan_step (c : Controller) (condenser : ℚ) : Controller :=
  if condenser > 80.0 then c.set_condenser_fan_duty (normalize condenser 75.0 100.0)
  else c.set_condenser_fan_duty 0.0

/-- Habitat-fan decision (main.rs:282-287): full on when
`ht_delta > 0.05` and `coolant < target`; full off when
`ht_delta < −0.05`; otherwise unchanged. -/
def Controller.habitat_fan_step (c : Controller) (target habitat coolant : ℚ) : Controller :=
  let ht_delta := habitat - target
  if ht_delta > 0.05 ∧ coolant < target then c.set_habitat_fan_duty 1.0
  else if ht_delta < -0.05 then c.set_habitat_fan_duty 0.0
  else c

/-- Coolant-pump decision (main.rs:289-293): duty
`normalize(ce_delta, −5, 15)` when `ce_delta > 5`, else `0`, where
`ce_delta = coolant − evaporator`. -/
def Controller.coolant_pump_step (c : Controller) (coolant evaporator : ℚ) : Controller :=
  let ce_delta := coolant - evaporator
  if ce_delta > 5.0 then c.set_coolant_pump_duty (normalize ce_delta (-5.0) 15.0)
  else c.set_coolant_pump_duty 0.0

/-- The body of the control task once a target is latched
(main.rs:251-294): the five actuator decisions in source order. -/
def Controller.control_body (c : Controller) (target : ℚ) (r : Readings) : Controller :=
  ((((c.heater_step target r.habitat).compressor_step target r.coolant).condenser_fan_step
      r.condenser).habitat_fan_step target r.habitat r.coolant).coolant_pump_step
    r.coolant r.evaporator

/-- The control task body past the deadline check (main.rs:247-294):
return unless the grace period has elapsed and a target is latched, else
run the control decisions on the current readings. -/
def Controller.update_body (c : Controller) (now : ℕ) (r : Readings) : Controller :=
  if now < GRACE_PERIOD then c
  else
    match c.target_temp with
    | none => c
    | some target => c.control_body target r

/-- `ClimateController::try_update` (main.rs:241): fire iff
`now ≥ next_update`; on firing advance the deadline by `UPDATE_INTERVAL`
(u32 wrapping) and run the control task body. -/
def Controller.try_update (c : Controller) (now : ℕ) (r : Readings) : Controller :=
  if now < c.next_update then c
  else
    Controller.update_body
      { c with next_update := (c.next_update + UPDATE_INTERVAL) % U32 } now r

/-- `ClimateController::print_temps` (main.rs:315): hand a render request
for the temperatures page to the display sink and remember it as the last
page. Character-level LCD writes carry no controller state. -/
def Controller.print_temps (c : Controller) : Controller :=
  { c with rendered := c.rendered ++ [Page.temps], last_page := Page.temps }

/-- `ClimateController::try_display` (main.rs:297): fire iff
`now ≥ next_display`; on firing advance the deadline by
`DISPLAY_INTERVAL` (u32 wrapping) and print the temperatures page. -/
def Controller.try_display (c : Controller) (now : ℕ) : Controller :=
  if now < c.next_display then c
  else
    Controller.print_temps
      { c with next_display := (c.next_display + DISPLAY_INTERVAL) % U32 }

/-- `ClimateController::try_blink` (main.rs:306): fire iff
`now ≥ next_blink`; on firing advance the deadline by `BLINK_INTERVAL`
(u32 wrapping) and toggle the LED. -/
def Controller.try_blink (c : Controller) (now : ℕ) : Controller :=
  if now < c.next_blink then c
  else
    { c with next_blink := (c.next_blink + BLINK_INTERVAL) % U32
             blink := !c.blink }

/-- `MICROS_PER_SECOND` (millis.rs:8). -/
def MICROS_PER_SECOND : ℕ := 1000000

/-- `CYCLES_PER_MICRO = DefaultClock::FREQ / MICROS_PER_SECOND` (millis.rs:9). -/
def CYCLES_PER_MICRO : ℕ := FREQ / MICROS_PER_SECOND

/-- `MICROS_PER_OVF = 64 · 256 / CYCLES_PER_MICRO` (millis.rs:10). -/
def MICROS_PER_OVF : ℕ := 64 * 256 / CYCLES_PER_MICRO

/-- `MILLIS_INC = MICROS_PER_OVF / 1000` (millis.rs:12). -/
def MILLIS_INC : ℕ := MICROS_PER_OVF / 1000

/-- `FRACT_INC = MICROS_PER_OVF.rem_euclid(1000) >> 3` (millis.rs:13). -/
def FRACT_INC : ℕ := MICROS_PER_OVF % 1000 / 2 ^ 3

/-- `FRACT_MAX = 1000 >> 3` (millis.rs:14). -/
def FRACT_MAX : ℕ := 1000 / 2 ^ 3

/-- The SoftClock state (millis.rs): the `MILLIS`, `FRACT` and `OVERFLOWS`
cells shared with the interrupt through a critical section. -/
structure Clock where
  millis : ℕ
  fract : ℕ
  overflows : ℕ
deriving DecidableEq, Repr

/-- The initial clock state (`init_millis`, millis.rs:48, and the static
cell initializers). -/
def Clock.init : Clock := { millis := 0, fract := 0, overflows := 0 }

/-- The `TIMER0_OVF` interrupt body (millis.rs:26): add `MILLIS_INC` to the
millisecond counter and `FRACT_INC` to the fraction accumulator (both u32
wrapping); when the fraction reaches `FRACT_MAX`, subtract it off and add
one extra millisecond. -/
def Clock.tick (s : Clock) : Clock :=
  let m := (s.millis + MILLIS_INC) % U32
  let f := (s.fract + FRACT_INC) % U32
  if FRACT_MAX ≤ f then
    { millis := (m + 1) % U32, fract := f - FRACT_MAX
      overflows := (s.overflows + 1) % U32 }
  else
    { millis := m, fract := f, overflows := (s.overflows + 1) % U32 }

/-- `millis()` (millis.rs:60): snapshot of the millisecond counter. -/
def Clock.read (s : Clock) : ℕ := s.millis

/-- `Thermistor::kelvin`, divider resistance (ntc.rs:68):
`ohms = r_bias · (1023 / sample − 1)`. -/
noncomputable def ohmsR (r_bias sample : ℝ) : ℝ := r_bias * (1023 / sample - 1)

/-- `Thermistor::kelvin` (ntc.rs:69):
`kelvin = b / (ln(ohms / r0) + b / (273.15 + 25.0))`. -/
noncomputable def kelvinR (r0 b r_bias sample : ℝ) : ℝ :=
  b / (Real.log (ohmsR r_bias sample / r0) + b / (273.15 + 25.0))

/-- `Thermistor::celsius` (ntc.rs:77): `kelvin − 273.15`. -/
noncomputable def celsiusR (r0 b r_bias sample : ℝ) : ℝ :=
  kelvinR r0 b r_bias sample - 273.15

/-- `Thermistor::fahrenheit` (ntc.rs:82): `celsius · 1.8 + 32`. -/
noncomputable def fahrenheitR (r0 b r_bias sample : ℝ) : ℝ :=
  celsiusR r0 b r_bias sample * 1.8 + 32.0

/-- Running the sensor bank over a whole list of aggregate sample calls. -/
def Sensorium.runSamples (s : Sensorium) (raws : List RawCodes) : Sensorium :=
  raws.foldl Sensorium.sample s

/-- Running the control task over a list of `(now, readings)` invocations. -/
def Controller.runUpdates (c : Controller) (inputs : List (ℕ × Readings)) : Controller :=
  inputs.foldl (fun s p => s.try_update p.1 p.2) c

/-! ### Helper lemmas -/

lemma heater_step_eq (c : Controller) (t h : ℚ) :
    c.heater_step t h = { c with heater := (c.heater_step t h).heater } := by
  unfold Controller.heater_step
  split_ifs <;> rfl

lemma compressor_step_eq (c : Controller) (t co : ℚ) :
    c.compressor_step t co = { c with compressor := (c.compressor_step t co).compressor } := by
  unfold Controller.compressor_step
  split_ifs <;> rfl

lemma condenser_fan_step_eq (c : Controller) (cd : ℚ) :
    c.condenser_fan_step cd = { c with pwm := (c.condenser_fan_step cd).pwm } := by
  unfold Controller.condenser_fan_step Controller.set_condenser_fan_duty
  split_ifs <;> rfl

lemma habitat_fan_step_eq (c : Controller) (t h co : ℚ) :
    c.habitat_fan_step t h co = { c with pwm := (c.habitat_fan_step t h co).pwm } := by
  unfold Controller.habitat_fan_step Controller.set_habitat_fan_duty
  dsimp only
  split_ifs <;> rfl

lemma coolant_pump_step_eq (c : Controller) (co ev : ℚ) :
    c.coolant_pump_step co ev = { c with pwm := (c.coolant_pump_step co ev).pwm } := by
  unfold Controller.coolant_pump_step Controller.set_coolant_pump_duty
  dsimp only
  split_ifs <;> rfl

/-- The control body only ever touches the heater, the compressor and the
PWM controller. -/
lemma control_body_eq (c : Controller) (t : ℚ) (r : Readings) :
    c.control_body t r =
      { c with heater := (c.control_body t r).heater
               compressor := (c.control_body t r).compressor
               pwm := (c.control_body t r).pwm } := by
  unfold Controller.control_body
  rw [coolant_pump_step_eq, habitat_fan_step_eq, condenser_fan_step_eq,
    compressor_step_eq, heater_step_eq]

lemma control_body_next_sample (c : Controller) (t : ℚ) (r : Readings) :
    (c.control_body t r).next_sample = c.next_sample := by
  rw [control_body_eq]

lemma control_body_next_update (c : Controller) (t : ℚ) (r : Readings) :
    (c.control_body t r).next_update = c.next_update := by
  rw [control_body_eq]

lemma control_body_next_display (c : Controller) (t : ℚ) (r : Readings) :
    (c.control_body t r).next_display = c.next_display := by
  rw [control_body_eq]

lemma control_body_next_blink (c : Controller) (t : ℚ) (r : Readings) :
    (c.control_body t r).next_blink = c.next_blink := by
  rw [control_body_eq]

lemma control_body_target (c : Controller) (t : ℚ) (r : Readings) :
    (c.control_body t r).target_temp = c.target_temp := by
  rw [control_body_eq]

lemma control_body_sensorium (c : Controller) (t : ℚ) (r : Readings) :
    (c.control_body t r).sensorium = c.sensorium := by
  rw [control_body_eq]

lemma control_body_blink (c : Controller) (t : ℚ) (r : Readings) :
    (c.control_body t r).blink = c.blink := by
  rw [control_body_eq]

lemma control_body_rendered (c : Controller) (t : ℚ) (r : Readings) :
    (c.control_body t r).rendered = c.rendered := by
  rw [control_body_eq]

/-- Only the heater decision touches the heater, so the control body's
heater outcome is the heater-step outcome. -/
lemma control_body_heater (c : Controller) (t : ℚ) (r : Readings) :
    (c.control_body t r).heater = (c.heater_step t r.habitat).heater := by
  unfold Controller.control_body
  rw [coolant_pump_step_eq, habitat_fan_step_eq, condenser_fan_step_eq,
    compressor_step_eq]

/-- Explicit decision table of the heater hysteresis step. -/
lemma heater_step_heater (c : Controller) (t h : ℚ) :
    (c.heater_step t h).heater =
      if c.heater.is_active then
        if h > t then RelayState.inactive else c.heater
      else if h < t - 1.0 then RelayState.active
      else c.heater := by
  unfold Controller.heater_step RelayState.activate RelayState.deactivate
  split_ifs <;> rfl

/-- The heater after a control-task invocation, given a latched target. -/
lemma try_update_heater (c : Controller) (now : ℕ) (r : Readings) (t : ℚ)
    (htar : c.target_temp = some t) :
    (c.try_update now r).heater =
      if now < c.next_update ∨ now < GRACE_PERIOD then c.heater
      else if c.heater.is_active then
        if r.habitat > t then RelayState.inactive else c.heater
      else if r.habitat < t - 1.0 then RelayState.active
      else c.heater := by
  unfold Controller.try_update Controller.update_body
  dsimp only
  rw [htar]
  rcases Nat.lt_or_ge now c.next_update with h1 | h1
  · rw [if_pos h1, if_pos (Or.inl h1)]
  · rw [if_neg (Nat.not_lt.mpr h1)]
    rcases Nat.lt_or_ge now GRACE_PERIOD with h2 | h2
    · rw [if_pos h2, if_pos (Or.inr h2)]
    · rw [if_neg (Nat.not_lt.mpr h2), if_neg (by
        rintro (h | h)
        · exact Nat.not_lt.mpr h1 h
        · exact Nat.not_lt.mpr h2 h)]
      rw [control_body_heater, heater_step_heater]

/-- A control-task invocation never changes the latched target. -/
lemma try_update_target (c : Controller) (now : ℕ) (r : Readings) :
    (c.try_update now r).target_temp = c.target_temp := by
  unfold Controller.try_update Controller.update_body
  dsimp only
  cases htt : c.target_temp with
  | none => simp only [htt]; split_ifs <;> first | exact htt | rfl
  | some t =>
      simp only [htt]
      split_ifs <;> first
        | exact htt
        | rfl
        | rw [control_body_target]

/-- The control task body only ever touches the heater, the compressor and
the PWM controller. -/
lemma update_body_eq (c : Controller) (now : ℕ) (r : Readings) :
    c.update_body now r =
      { c with heater := (c.update_body now r).heater
               compressor := (c.update_body now r).compressor
               pwm := (c.update_body now r).pwm } := by
  unfold Controller.update_body
  split_ifs
  · rfl
  · split
    · rfl
    · exact control_body_eq c _ r

lemma update_body_next_sample (c : Controller) (now : ℕ) (r : Readings) :
    (c.update_body now r).next_sample = c.next_sample := by
  rw [update_body_eq]

lemma update_body_next_update (c : Controller) (now : ℕ) (r : Readings) :
    (c.update_body now r).next_update = c.next_update := by
  rw [update_body_eq]

lemma update_body_next_display (c : Controller) (now : ℕ) (r : Readings) :
    (c.update_body now r).next_display = c.next_display := by
  rw [update_body_eq]

lemma update_body_next_blink (c : Controller) (now : ℕ) (r : Readings) :
    (c.update_body now r).next_blink = c.next_blink := by
  rw [update_body_eq]

/-- Inside the open hysteresis band `(t − 1, t)` a control-task invocation
leaves the heater untouched. -/
lemma try_update_heater_band (c : Controller) (now : ℕ) (r : Readings) (t : ℚ)
    (htar : c.target_temp = some t)
    (hlo : t - 1.0 < r.habitat) (hhi : r.habitat < t) :
    (c.try_update now r).heater = c.heater := by
  rw [try_update_heater c now r t htar]
  split_ifs with h1 h2 h3 h4
  · rfl
  · exact absurd h3 (not_lt.mpr hhi.le)
  · rfl
  · exact absurd h4 (not_lt.mpr hlo.le)
  · rfl

/-- Iterated control invocations with a latched target of 57.5 and all
habitat readings strictly inside `(56.5, 57.5)` never move the heater. -/
lemma runUpdates_heater_band (inputs : List (ℕ × Readings)) :
    ∀ c : Controller, c.target_temp = some 57.5 →
      (∀ p ∈ inputs, 56.5 < p.2.habitat ∧ p.2.habitat < 57.5) →
      (c.runUpdates inputs).heater = c.heater := by
  induction inputs with
  | nil => intro c _ _; rfl
  | cons p l ih =>
      intro c htar hband
      have hp := hband p (List.mem_cons_self p l)
      have hstep : (c.try_update p.1 p.2).heater = c.heater :=
        try_update_heater_band c p.1 p.2 57.5 htar (by linarith [hp.1]) hp.2
      have htar' : (c.try_update p.1 p.2).target_temp = some 57.5 := by
        rw [try_update_target]; exact htar
      unfold Controller.runUpdates at ih ⊢
      rw [List.foldl_cons,
        ih (c.try_update p.1 p.2) htar'
          (fun q hq => hband q (List.mem_cons_of_mem _ hq)),
        hstep]

lemma sample_sens (s : Sensorium) (raw : RawCodes) :
    (s.sample raw).sens = if 0 < s.sens_steps then s.sens * 0.5 else s.sens := by
  unfold Sensorium.sample
  dsimp only
  split_ifs <;> rfl

lemma sample_sens_steps (s : Sensorium) (raw : RawCodes) :
    (s.sample raw).sens_steps = s.sens_steps - 1 := by
  unfold Sensorium.sample
  dsimp only
  split_ifs with h
  · rfl
  · dsimp only at h ⊢
    omega

lemma sample_coolant (s : Sensorium) (raw : RawCodes) :
    (s.sample raw).coolant_temp = s.coolant_temp.sampleStep raw.coolant s.sens := by
  unfold Sensorium.sample
  dsimp only
  split_ifs <;> rfl

lemma sample_habitat (s : Sensorium) (raw : RawCodes) :
    (s.sample raw).habitat_temp = s.habitat_temp.sampleStep raw.habitat s.sens := by
  unfold Sensorium.sample
  dsimp only
  split_ifs <;> rfl

lemma sample_condenser (s : Sensorium) (raw : RawCodes) :
    (s.sample raw).condenser_temp = s.condenser_temp.sampleStep raw.condenser s.sens := by
  unfold Sensorium.sample
  dsimp only
  split_ifs <;> rfl

lemma sample_evaporator (s : Sensorium) (raw : RawCodes) :
    (s.sample raw).evaporator_temp = s.evaporator_temp.sampleStep raw.evaporator s.sens := by
  unfold Sensorium.sample
  dsimp only
  split_ifs <;> rfl

/-- Closed form of the shared coefficient after a run of aggregate sample
calls: it halves once per call while decay steps remain, then freezes. -/
lemma runSamples_sens (l : List RawCodes) :
    ∀ s : Sensorium,
      (s.runSamples l).sens = s.sens * (1 / 2 : ℚ) ^ min l.length s.sens_steps := by
  induction l with
  | nil => intro s; simp [Sensorium.runSamples]
  | cons a l ih =>
      intro s
      unfold Sensorium.runSamples at ih ⊢
      rw [List.foldl_cons, ih (s.sample a), sample_sens, sample_sens_steps]
      rcases Nat.eq_zero_or_pos s.sens_steps with h | h
      · rw [h]
        norm_num
      · rw [if_pos h, List.length_cons]
        have hmin : min (l.length + 1) s.sens_steps = min l.length (s.sens_steps - 1) + 1 := by
          omega
        rw [hmin, pow_succ]
        ring

/-- Clock constant values at the 16 MHz default clock. -/
lemma millis_inc_val : MILLIS_INC = 1 := rfl

lemma fract_inc_val : FRACT_INC = 3 := rfl

lemma fract_max_val : FRACT_MAX = 125 := rfl

lemma u32_val : U32 = 4294967296 := rfl

/-- One timer overflow moves the millisecond counter up by one or two,
absent wraparound. -/
lemma tick_millis_le (s : Clock) (h : s.millis + 2 < U32) :
    s.millis ≤ s.tick.millis ∧ s.tick.millis ≤ s.millis + 2 := by
  have h1 : (s.millis + MILLIS_INC) % U32 = s.millis + 1 := by
    rw [millis_inc_val]
    exact Nat.mod_eq_of_lt (by omega)
  have h2 : ((s.millis + MILLIS_INC) % U32 + 1) % U32 = s.millis + 2 := by
    rw [h1]
    exact Nat.mod_eq_of_lt (by omega)
  unfold Clock.tick
  dsimp only
  split_ifs with hf
  · dsimp only
    rw [h2]
    omega
  · dsimp only
    rw [h1]
    omega

/-- Iterated overflow interrupts never decrease the millisecond counter
while it stays below the u32 wraparound. -/
lemma tick_iter_mono (k : ℕ) :
    ∀ s : Clock, s.millis + 2 * k < U32 → s.millis ≤ (Clock.tick^[k] s).millis := by
  induction k with
  | zero => intro s _; simp
  | succ n ih =>
      intro s h
      rw [Function.iterate_succ_apply]
      have hb := tick_millis_le s (by omega)
      exact le_trans hb.1 (ih s.tick (by omega))

/-! ### Claim theorems -/

/-- Claim C6: for all `lo < hi`, `normalize lo lo hi = 0`,
`normalize hi lo hi = 1`, `normalize v lo hi` lies in `[0,1]` for every
`v` (saturating outside `[lo,hi]`), and `normalize` is monotonically
non-decreasing in `v`. -/
theorem normalize_props (v w lo hi : ℚ) (h : lo < hi) :
    normalize lo lo hi = 0 ∧ normalize hi lo hi = 1 ∧
    0 ≤ normalize v lo hi ∧ normalize v lo hi ≤ 1 ∧
    (v ≤ w → normalize v lo hi ≤ normalize w lo hi) := by
  have hpos : (0 : ℚ) < hi - lo := by linarith
  refine ⟨?_, ?_, ?_, ?_, ?_⟩
  · unfold normalize clampf
    rw [min_eq_left h.le, max_self, sub_self, zero_div]
  · unfold normalize clampf
    rw [min_self, max_eq_right h.le, div_self hpos.ne']
  · unfold normalize clampf
    exact div_nonneg (by linarith [le_max_left lo (min v hi)]) hpos.le
  · unfold normalize clampf
    rw [div_le_one hpos]
    have hm : max lo (min v hi) ≤ hi := max_le h.le (min_le_right v hi)
    linarith
  · intro hvw
    unfold normalize clampf
    have hc : max lo (min v hi) ≤ max lo (min w hi) :=
      max_le_max le_rfl (min_le_min hvw le_rfl)
    exact (div_le_div_iff_of_pos_right hpos).mpr (by linarith)

/-- Witness for claim C6 at `v = 3`, `w = 7`, `lo = 0`, `hi = 10`. -/
theorem normalize_props_witness :
    (0 : ℚ) < 10 ∧
    (normalize 0 0 10 = 0 ∧ normalize 10 0 10 = 1 ∧
     0 ≤ normalize 3 0 10 ∧ normalize 3 0 10 ≤ 1 ∧
     ((3 : ℚ) ≤ 7 → normalize 3 0 10 ≤ normalize 7 0 10)) :=
  ⟨by norm_num, normalize_props 3 7 0 10 (by norm_num)⟩

/-- Claim C10: every `set_duty_a/b/c` call clamps its argument to `[0,1]`
first; the stored duty and the compare register are both derived from the
clamped value, so the stored duty fraction always lies in `[0,1]`. -/
theorem set_duty_clamped (p : PWMController) (d : ℚ) :
    ((p.set_duty_a d).duty_a = clampf d 0 1 ∧
     0 ≤ (p.set_duty_a d).duty_a ∧ (p.set_duty_a d).duty_a ≤ 1 ∧
     (p.set_duty_a d).ocr1a = (⌊(p.top : ℚ) * clampf d 0 1⌋).toNat) ∧
    ((p.set_duty_b d).duty_b = clampf d 0 1 ∧
     0 ≤ (p.set_duty_b d).duty_b ∧ (p.set_duty_b d).duty_b ≤ 1 ∧
     (p.set_duty_b d).ocr1b = (⌊(p.top : ℚ) * clampf d 0 1⌋).toNat) ∧
    ((p.set_duty_c d).duty_c = clampf d 0 1 ∧
     0 ≤ (p.set_duty_c d).duty_c ∧ (p.set_duty_c d).duty_c ≤ 1 ∧
     (p.set_duty_c d).ocr1c = (⌊(p.top : ℚ) * clampf d 0 1⌋).toNat) := by
  have h0 : 0 ≤ clampf d 0 1 := le_max_left 0 (min d 1)
  have h1 : clampf d 0 1 ≤ 1 := max_le zero_le_one (min_le_right d 1)
  exact ⟨⟨rfl, h0, h1, rfl⟩, ⟨rfl, h0, h1, rfl⟩, ⟨rfl, h0, h1, rfl⟩⟩

/-- Claim C8: the first `begin` call stores the target and activates the
master relay; any later `begin` call, with any argument, is a complete
no-op on the whole controller state. -/
theorem begin_oneshot (c : Controller) (t u : ℚ) (h : c.target_temp = none) :
    (c.begin t).target_temp = some t ∧
    (c.begin t).master_120vac = RelayState.active ∧
    (c.begin t).begin u = c.begin t := by
  have h1 : c.begin t =
      { c with target_temp := some t, master_120vac := RelayState.active } := by
    unfold Controller.begin RelayState.activate
    rw [h]
    rfl
  refine ⟨by rw [h1], by rw [h1], ?_⟩
  rw [h1]
  unfold Controller.begin
  rfl

/-- Witness for claim C8 from the freshly constructed controller. -/
theorem begin_oneshot_witness :
    (Controller.new.begin 57.5).target_temp = some 57.5 ∧
    (Controller.new.begin 57.5).master_120vac = RelayState.active ∧
    ((Controller.new.begin 57.5).begin 60 = Controller.new.begin 57.5) :=
  begin_oneshot Controller.new 57.5 60 rfl

/-- Claim C7: whenever the target is unset or the grace period has not
elapsed, a control-task invocation leaves the heater, the compressor and
all three duty fractions unchanged. -/
theorem control_inert (c : Controller) (now : ℕ) (r : Readings)
    (h : c.target_temp = none ∨ now < GRACE_PERIOD) :
    (c.try_update now r).heater = c.heater ∧
    (c.try_update now r).compressor = c.compressor ∧
    (c.try_update now r).pwm.duty_a = c.pwm.duty_a ∧
    (c.try_update now r).pwm.duty_b = c.pwm.duty_b ∧
    (c.try_update now r).pwm.duty_c = c.pwm.duty_c := by
  unfold Controller.try_update Controller.update_body
  dsimp only
  rcases h with h | h
  · simp only [h]
    split_ifs <;> exact ⟨rfl, rfl, rfl, rfl, rfl⟩
  · split_ifs <;> exact ⟨rfl, rfl, rfl, rfl, rfl⟩

/-- Witness for claim C7: the fresh controller (target unset) at
`now = 5000`. -/
theorem control_inert_witness :
    (Controller.new.target_temp = none ∨ 5000 < GRACE_PERIOD) ∧
    ((Controller.new.try_update 5000
        { habitat := 55, coolant := 40, condenser := 70, evaporator := 38 }).heater
      = Controller.new.heater ∧
     (Controller.new.try_update 5000
        { habitat := 55, coolant := 40, condenser := 70, evaporator := 38 }).compressor
      = Controller.new.compressor ∧
     (Controller.new.try_update 5000
        { habitat := 55, coolant := 40, condenser := 70, evaporator := 38 }).pwm.duty_a
      = Controller.new.pwm.duty_a ∧
     (Controller.new.try_update 5000
        { habitat := 55, coolant := 40, condenser := 70, evaporator := 38 }).pwm.duty_b
      = Controller.new.pwm.duty_b ∧
     (Controller.new.try_update 5000
        { habitat := 55, coolant := 40, condenser := 70, evaporator := 38 }).pwm.duty_c
      = Controller.new.pwm.duty_c) :=
  ⟨Or.inl rfl,
   control_inert Controller.new 5000
     { habitat := 55, coolant := 40, condenser := 70, evaporator := 38 } (Or.inl rfl)⟩

/-- Claim C9 counterexample: the compiled display task never rotates
pages — two consecutive fired display ticks from the fresh controller hand
identical temperatures-page render requests to the display, so no fixed
rotation through the informational pages (temperatures page / time page)
takes place. -/
theorem display_rotation_cex :
    ((Controller.new.try_display 0).try_display 100).rendered
        = [Page.temps, Page.temps] ∧
    ¬ List.Chain' (fun a b : Page => a ≠ b)
        (((Controller.new.try_display 0).try_display 100).rendered) := by
  have h : ((Controller.new.try_display 0).try_display 100).rendered
      = [Page.temps, Page.temps] := rfl
  refine ⟨h, ?_⟩
  rw [h]
  simp [List.chain'_cons]

/-- Claim C9 (amended): on each fired display tick the core hands the
display sink a render request for the temperatures page — the only
informational page of the compiled program — and records it as the
current page; the deadline advances by `DISPLAY_INTERVAL`. -/
theorem display_page_fixed (c : Controller) (now : ℕ)
    (h : ¬ now < c.next_display) :
    (c.try_display now).rendered = c.rendered ++ [Page.temps] ∧
    (c.try_display now).last_page = Page.temps ∧
    (c.try_display now).next_display = (c.next_display + DISPLAY_INTERVAL) % U32 := by
  unfold Controller.try_display Controller.print_temps
  rw [if_neg h]
  exact ⟨rfl, rfl, rfl⟩

/-- Witness for the amended claim C9 at the fresh controller, `now = 0`. -/
theorem display_page_fixed_witness :
    ¬ (0 < Controller.new.next_display) ∧
    ((Controller.new.try_display 0).rendered
        = Controller.new.rendered ++ [Page.temps] ∧
     (Controller.new.try_display 0).last_page = Page.temps ∧
     (Controller.new.try_display 0).next_display
        = (Controller.new.next_display + DISPLAY_INTERVAL) % U32) :=
  ⟨by decide, display_page_fixed Controller.new 0 (by decide)⟩

/-- Claim C3: on the first aggregate sample call every channel's filtered
value equals its raw code exactly; the shared coefficient after `n`
aggregate calls is `(1/2)^(min n 10)` — it halves on each of the first 10
calls and is frozen at `2⁻¹⁰` from then on (in particular after 11 calls
it equals `(1/2)^10` and never changes again); and every channel update
follows `filtered ← filtered·(1−c) + raw·c` with the shared coefficient. -/
theorem filter_schedule (s : Sensorium) (raw : RawCodes) (l : List RawCodes) :
    ((Sensorium.new.sample raw).coolant_temp.sample = raw.coolant ∧
     (Sensorium.new.sample raw).habitat_temp.sample = raw.habitat ∧
     (Sensorium.new.sample raw).condenser_temp.sample = raw.condenser ∧
     (Sensorium.new.sample raw).evaporator_temp.sample = raw.evaporator) ∧
    (Sensorium.new.runSamples l).sens = (1 / 2 : ℚ) ^ min l.length 10 ∧
    ((s.sample raw).coolant_temp.sample
        = s.coolant_temp.sample * (1 - s.sens) + raw.coolant * s.sens ∧
     (s.sample raw).habitat_temp.sample
        = s.habitat_temp.sample * (1 - s.sens) + raw.habitat * s.sens ∧
     (s.sample raw).condenser_temp.sample
        = s.condenser_temp.sample * (1 - s.sens) + raw.condenser * s.sens ∧
     (s.sample raw).evaporator_temp.sample
        = s.evaporator_temp.sample * (1 - s.sens) + raw.evaporator * s.sens) := by
  refine ⟨⟨?_, ?_, ?_, ?_⟩, ?_, ?_, ?_, ?_, ?_⟩
  · rw [sample_coolant]
    show (0 : ℚ) * (1 - 1) + raw.coolant * 1 = raw.coolant
    ring
  · rw [sample_habitat]
    show (0 : ℚ) * (1 - 1) + raw.habitat * 1 = raw.habitat
    ring
  · rw [sample_condenser]
    show (0 : ℚ) * (1 - 1) + raw.condenser * 1 = raw.condenser
    ring
  · rw [sample_evaporator]
    show (0 : ℚ) * (1 - 1) + raw.evaporator * 1 = raw.evaporator
    ring
  · rw [runSamples_sens l Sensorium.new]
    show (1 : ℚ) * (1 / 2) ^ min l.length 10 = (1 / 2 : ℚ) ^ min l.length 10
    ring
  · rw [sample_coolant]; rfl
  · rw [sample_habitat]; rfl
  · rw [sample_condenser]; rfl
  · rw [sample_evaporator]; rfl

/-- Claim C5: each timer-overflow invocation adds `MILLIS_INC` to the
millisecond counter and `FRACT_INC` to the fraction accumulator; when the
fraction reaches `FRACT_MAX` it is reset (by subtracting `FRACT_MAX`) and
one extra millisecond is added; the fraction invariant is preserved, and
over any number of ticks short of the u32 wraparound the value returned by
`millis()` never decreases. -/
theorem clock_accumulation (s : Clock) (k : ℕ)
    (hf : s.fract < FRACT_MAX) (hm : s.millis + 2 * k < U32) :
    s.tick.millis = (if FRACT_MAX ≤ (s.fract + FRACT_INC) % U32
        then ((s.millis + MILLIS_INC) % U32 + 1) % U32
        else (s.millis + MILLIS_INC) % U32) ∧
    s.tick.fract = (if FRACT_MAX ≤ (s.fract + FRACT_INC) % U32
        then (s.fract + FRACT_INC) % U32 - FRACT_MAX
        else (s.fract + FRACT_INC) % U32) ∧
    s.tick.fract < FRACT_MAX ∧
    s.read ≤ (Clock.tick^[k] s).read := by
  refine ⟨?_, ?_, ?_, tick_iter_mono k s hm⟩
  · unfold Clock.tick
    dsimp only
    split_ifs <;> rfl
  · unfold Clock.tick
    dsimp only
    split_ifs <;> rfl
  · unfold Clock.tick
    dsimp only
    split_ifs with hcase
    · dsimp only
      simp only [fract_inc_val, fract_max_val, u32_val] at hcase ⊢
      simp only [fract_max_val] at hf
      omega
    · dsimp only
      simp only [fract_inc_val, fract_max_val, u32_val] at hcase ⊢
      simp only [fract_max_val] at hf
      omega

/-- Witness for claim C5 at the freshly initialized clock over 1000
ticks. -/
theorem clock_accumulation_witness :
    (Clock.init.fract < FRACT_MAX ∧ Clock.init.millis + 2 * 1000 < U32) ∧
    (Clock.init.tick.millis = (if FRACT_MAX ≤ (Clock.init.fract + FRACT_INC) % U32
        then ((Clock.init.millis + MILLIS_INC) % U32 + 1) % U32
        else (Clock.init.millis + MILLIS_INC) % U32) ∧
     Clock.init.tick.fract = (if FRACT_MAX ≤ (Clock.init.fract + FRACT_INC) % U32
        then (Clock.init.fract + FRACT_INC) % U32 - FRACT_MAX
        else (Clock.init.fract + FRACT_INC) % U32) ∧
     Clock.init.tick.fract < FRACT_MAX ∧
     Clock.init.read ≤ (Clock.tick^[1000] Clock.init).read) :=
  ⟨⟨by decide, by decide⟩, clock_accumulation Clock.init 1000 (by decide) (by decide)⟩

/-- Claim C1: with the target latched at 57.5, the heater goes OFF→ON only
when the habitat reading is below 56.5, ON→OFF only when the habitat
reading is above 57.5, and any sequence of control invocations whose
habitat readings stay strictly inside `(56.5, 57.5)` never moves the
heater. -/
theorem heater_hysteresis (c : Controller) (now : ℕ) (r : Readings)
    (inputs : List (ℕ × Readings))
    (htar : c.target_temp = some 57.5)
    (hband : ∀ p ∈ inputs, 56.5 < p.2.habitat ∧ p.2.habitat < 57.5) :
    (c.heater = RelayState.inactive →
      (c.try_update now r).heater = RelayState.active → r.habitat < 56.5) ∧
    (c.heater = RelayState.active →
      (c.try_update now r).heater = RelayState.inactive → 57.5 < r.habitat) ∧
    (c.runUpdates inputs).heater = c.heater := by
  refine ⟨?_, ?_, runUpdates_heater_band inputs c htar hband⟩
  · intro hoff hon
    rw [try_update_heater c now r 57.5 htar] at hon
    simp only [hoff, RelayState.is_active] at hon
    split_ifs at hon <;> first | linarith | exact absurd hon (by decide)
  · intro hactive hoff
    rw [try_update_heater c now r 57.5 htar] at hoff
    simp only [hactive, RelayState.is_active] at hoff
    split_ifs at hoff <;> first | linarith | exact absurd hoff (by decide)

/-- Witness for claim C1: the activated controller, one invocation at
`now = 2000` with habitat 55, and a two-invocation in-band run. -/
theorem heater_hysteresis_witness :
    ((Controller.new.begin 57.5).heater = RelayState.inactive →
      ((Controller.new.begin 57.5).try_update 2000
          { habitat := 55, coolant := 40, condenser := 70, evaporator := 38 }).heater
        = RelayState.active → (55 : ℚ) < 56.5) ∧
    ((Controller.new.begin 57.5).heater = RelayState.active →
      ((Controller.new.begin 57.5).try_update 2000
          { habitat := 55, coolant := 40, condenser := 70, evaporator := 38 }).heater
        = RelayState.inactive → (57.5 : ℚ) < 55) ∧
    ((Controller.new.begin 57.5).runUpdates
        [(2000, { habitat := 57, coolant := 40, condenser := 70, evaporator := 38 }),
         (2010, { habitat := 56.75, coolant := 40, condenser := 70, evaporator := 38 })]).heater
      = (Controller.new.begin 57.5).heater :=
  heater_hysteresis (Controller.new.begin 57.5) 2000
    { habitat := 55, coolant := 40, condenser := 70, evaporator := 38 }
    [(2000, { habitat := 57, coolant := 40, condenser := 70, evaporator := 38 }),
     (2010, { habitat := 56.75, coolant := 40, condenser := 70, evaporator := 38 })]
    rfl (by intro p hp; fin_cases hp <;> norm_num)

/-- Claim C2: each schedule slot's task body runs iff `now ≥ deadline`;
when it runs the deadline advances by exactly the slot's fixed period
(in u32 arithmetic), independently of `now`, and the other slots'
deadlines are untouched; when `now < deadline` the whole controller is
left unchanged. -/
theorem scheduler_fidelity (c : Controller) (now : ℕ) (raw : RawCodes) (r : Readings) :
    (now < c.next_sample → c.try_sample now raw = c) ∧
    (¬ now < c.next_sample →
      c.try_sample now raw =
        { c with next_sample := (c.next_sample + SAMPLE_INTERVAL) % U32
                 sensorium := c.sensorium.sample raw }) ∧
    (now < c.next_update → c.try_update now r = c) ∧
    (¬ now < c.next_update →
      c.try_update now r =
        Controller.update_body
          { c with next_update := (c.next_update + UPDATE_INTERVAL) % U32 } now r ∧
      (c.try_update now r).next_update = (c.next_update + UPDATE_INTERVAL) % U32 ∧
      (c.try_update now r).next_sample = c.next_sample ∧
      (c.try_update now r).next_display = c.next_display ∧
      (c.try_update now r).next_blink = c.next_blink) ∧
    (now < c.next_display → c.try_display now = c) ∧
    (¬ now < c.next_display →
      c.try_display now =
        Controller.print_temps
          { c with next_display := (c.next_display + DISPLAY_INTERVAL) % U32 }) ∧
    (now < c.next_blink → c.try_blink now = c) ∧
    (¬ now < c.next_blink →
      c.try_blink now =
        { c with next_blink := (c.next_blink + BLINK_INTERVAL) % U32
                 blink := !c.blink }) := by
  refine ⟨?_, ?_, ?_, ?_, ?_, ?_, ?_, ?_⟩
  · intro h; unfold Controller.try_sample; rw [if_pos h]
  · intro h; unfold Controller.try_sample; rw [if_neg h]
  · intro h; unfold Controller.try_update; rw [if_pos h]
  · intro h
    unfold Controller.try_update
    rw [if_neg h]
    refine ⟨rfl, ?_, ?_, ?_, ?_⟩
    · rw [update_body_next_update]
    · rw [update_body_next_sample]
    · rw [update_body_next_display]
    · rw [update_body_next_blink]
  · intro h; unfold Controller.try_display; rw [if_pos h]
  · intro h; unfold Controller.try_display; rw [if_neg h]
  · intro h; unfold Controller.try_blink; rw [if_pos h]
  · intro h; unfold Controller.try_blink; rw [if_neg h]

/-- Witness for claim C2 at the fresh controller (all deadlines 0) and
`now = 0`: every slot fires. -/
theorem scheduler_fidelity_witness :
    ¬ (0 < Controller.new.next_sample) ∧
    (Controller.new.try_sample 0 { coolant := 1, habitat := 2, condenser := 3, evaporator := 4 } =
      { Controller.new with
          next_sample := (Controller.new.next_sample + SAMPLE_INTERVAL) % U32
          sensorium := Controller.new.sensorium.sample
            { coolant := 1, habitat := 2, condenser := 3, evaporator := 4 } }) ∧
    (Controller.new.try_update 0 { habitat := 55, coolant := 40, condenser := 70, evaporator := 38 } =
      Controller.update_body
        { Controller.new with
            next_update := (Controller.new.next_update + UPDATE_INTERVAL) % U32 } 0
        { habitat := 55, coolant := 40, condenser := 70, evaporator := 38 }) ∧
    (Controller.new.try_display 0 =
      Controller.print_temps
        { Controller.new with
            next_display := (Controller.new.next_display + DISPLAY_INTERVAL) % U32 }) ∧
    (Controller.new.try_blink 0 =
      { Controller.new with
          next_blink := (Controller.new.next_blink + BLINK_INTERVAL) % U32
          blink := !Controller.new.blink }) := by
  have h := scheduler_fidelity Controller.new 0
    { coolant := 1, habitat := 2, condenser := 3, evaporator := 4 }
    { habitat := 55, coolant := 40, condenser := 70, evaporator := 38 }
  exact ⟨by decide, h.2.1 (by decide), (h.2.2.2.1 (by decide)).1,
    h.2.2.2.2.2.1 (by decide), h.2.2.2.2.2.2.2 (by decide)⟩

/-- Claim C4 counterexample: the claim's synthetic code
`filtered = 1023·r0/(r0 + r_bias)` does not give 25 °C. On the habitat
channel (`r0 = 20000`, `beta = 3950`, `r_bias = 21440`) the computed
divider resistance at that code is `r_bias²/r0 ≈ 22984 Ω ≠ r0`, and the
derived temperature misses 25 °C by more than two degrees, far outside
the 1e-3 tolerance. -/
theorem calibration_claim_cex :
    ¬ |celsiusR 20000 3950 21440 (1023 * 20000 / (20000 + 21440)) - 25| ≤ 1e-3 := by
  intro habs
  rw [abs_le] at habs
  have hx : ohmsR 21440 ((1023 * 20000 / (20000 + 21440) : ℝ)) / 20000
      = 17956 / 15625 := by
    unfold ohmsR
    norm_num
  have hlog_lb : (1 : ℝ) - ((17956 : ℝ) / 15625)⁻¹ ≤ Real.log ((17956 : ℝ) / 15625) := by
    have h := Real.log_le_sub_one_of_pos
      (x := ((17956 : ℝ) / 15625)⁻¹) (by positivity)
    rw [Real.log_inv] at h
    linarith
  have hlb : (0.12 : ℝ) ≤ Real.log ((17956 : ℝ) / 15625) := by
    have h12 : (0.12 : ℝ) ≤ 1 - ((17956 : ℝ) / 15625)⁻¹ := by norm_num
    linarith
  have hD : (13.36 : ℝ) ≤ Real.log ((17956 : ℝ) / 15625) + 3950 / (273.15 + 25.0) := by
    have h1 : (13.24 : ℝ) ≤ 3950 / (273.15 + 25.0) := by norm_num
    linarith
  have hkel : kelvinR 20000 3950 21440 (1023 * 20000 / (20000 + 21440))
      = 3950 / (Real.log ((17956 : ℝ) / 15625) + 3950 / (273.15 + 25.0)) := by
    unfold kelvinR
    rw [hx]
  have hkel_ub : kelvinR 20000 3950 21440 (1023 * 20000 / (20000 + 21440))
      ≤ 3950 / 13.36 := by
    rw [hkel]
    gcongr
  have hnum : (3950 : ℝ) / 13.36 ≤ 295.7 := by norm_num
  have hc : celsiusR 20000 3950 21440 (1023 * 20000 / (20000 + 21440))
      = kelvinR 20000 3950 21440 (1023 * 20000 / (20000 + 21440)) - 273.15 := rfl
  rw [hc] at habs
  have := habs.1
  linarith

/-- Claim C4 (amended): feeding a synthetic code whose computed divider
resistance equals `r0` — that is, `filtered = 1023·r_bias/(r0 + r_bias)`,
the thermistor being on the supply side — yields exactly 25 °C, hence
25 °C within the 1e-3 tolerance, for every channel with positive
calibration constants. -/
theorem calibration_sanity (r0 b r_bias sample : ℝ)
    (hr0 : 0 < r0) (hb : 0 < b) (hrb : 0 < r_bias)
    (hs : sample = 1023 * r_bias / (r0 + r_bias)) :
    ohmsR r_bias sample = r0 ∧
    celsiusR r0 b r_bias sample = 25 ∧
    |celsiusR r0 b r_bias sample - 25| ≤ 1e-3 := by
  have hsum : (0 : ℝ) < r0 + r_bias := by linarith
  have hohms : ohmsR r_bias sample = r0 := by
    unfold ohmsR
    rw [hs]
    field_simp
    ring
  have hcel : celsiusR r0 b r_bias sample = 25 := by
    unfold celsiusR kelvinR
    rw [hohms, div_self hr0.ne', Real.log_one, zero_add]
    have h2 : b / (b / (273.15 + 25.0)) = 273.15 + 25.0 := by
      field_simp
    rw [h2]
    norm_num
  refine ⟨hohms, hcel, ?_⟩
  rw [hcel]
  norm_num

/-- Witness for the amended claim C4 on the coolant channel
(`r0 = 10000`, `beta = 3380`, `r_bias = 9820`). -/
theorem calibration_sanity_witness :
    ((0 : ℝ) < 10000 ∧ (0 : ℝ) < 3380 ∧ (0 : ℝ) < 9820) ∧
    (ohmsR 9820 (1023 * 9820 / (10000 + 9820)) = 10000 ∧
     celsiusR 10000 3380 9820 (1023 * 9820 / (10000 + 9820)) = 25 ∧
     |celsiusR 10000 3380 9820 (1023 * 9820 / (10000 + 9820)) - 25| ≤ 1e-3) :=
  ⟨⟨by norm_num, by norm_num, by norm_num⟩,
   calibration_sanity 10000 3380 9820 (1023 * 9820 / (10000 + 9820))
     (by norm_num) (by norm_num) (by norm_num) rfl⟩

end Formiclimate
